import Mathlib

/-!
# Verification of the `stock_news` daily blog-automation pipeline

Shallow embedding of `run_automation.py`. Pure logic (day-of-week mode
selection, snapshot arithmetic, HTML-extraction fallback chain, model-response
parsing, credential short-circuits and the publish guard) is translated
directly from the source; the external world (the yfinance history, the
scraped page, the model's reply, HTTP outcomes) is passed in as explicit
input data. Python floats are modelled as exact rationals, with `round(x, 2)`
modelled as decimal rounding half-to-even; outbound network calls are modelled
as events in a trace so that "no request is issued" is a statement about the
trace. Python string primitives (`split`, `strip`, `startswith`, slicing,
`join`) are embedded as structural recursions over the character list of a
`String`, so every definition evaluates on concrete inputs.
-/

namespace StockNews

/-! ## Python string primitives, charwise -/

/-- The ASCII whitespace stripped by Python `str.strip()` with no argument
(the source only ever strips ASCII/Korean text, so the further Unicode
whitespace classes are not modelled). -/
def pyIsSpace (c : Char) : Bool :=
  c = ' ' || c = '\t' || c = '\n' || c = '\r' || c = '\x0b' || c = '\x0c'

/-- Python `s.strip()`: drop leading and trailing whitespace. -/
def stripChars (l : List Char) : List Char :=
  ((l.dropWhile pyIsSpace).reverse.dropWhile pyIsSpace).reverse

/-- Python `s.strip()` on a `String`. -/
def pyStrip (s : String) : String := ⟨stripChars s.data⟩

/-- Python `s.startswith(m)`. -/
def pyStartsWith (s m : String) : Bool := m.data.isPrefixOf s.data

/-- Python `s[n:]`. -/
def pyDrop (s : String) (n : Nat) : String := ⟨s.data.drop n⟩

/-- Python `s.split(sep)` for a one-character separator: splitting the empty
string yields `[""]`, and a trailing separator yields a trailing `""`. -/
def splitChar (sep : Char) : List Char → List (List Char)
  | [] => [[]]
  | c :: cs =>
    if c = sep then [] :: splitChar sep cs
    else
      match splitChar sep cs with
      | [] => [[c]]
      | h :: t => (c :: h) :: t

/-- Python `text.split('\n')`. -/
def pySplitNL (text : String) : List String :=
  (splitChar '\n' text.data).map String.mk

/-- Python `"\n".join(lines)`. -/
def joinNL : List String → String
  | [] => ""
  | [s] => s
  | s :: rest => s ++ "\n" ++ joinNL rest

/-- Everything after the first `':'`; `[]` when there is no colon (the source
reaches its `line.split(':', 1)[1]` only on lines that contain one). -/
def afterColonChars : List Char → List Char
  | [] => []
  | c :: cs => if c = ':' then cs else afterColonChars cs

/-- Python truthiness test `not x` for an optional environment string:
`os.getenv` yields `None` when unset, and an empty string is also falsy. -/
def envFalsy (o : Option String) : Bool := o.getD "" == ""

/-! ## Market snapshot fetcher (`get_nasdaq_data`) -/

/-- One daily bar of the yfinance history `DataFrame`: the row label
(`last_day.name`, a date rendered `%Y-%m-%d`) and the price/volume columns. -/
structure Bar where
  name : String
  Close : ℚ
  Open : ℚ
  High : ℚ
  Low : ℚ
  Volume : ℚ
deriving DecidableEq, Repr

/-- The dict returned by `get_nasdaq_data`. -/
structure MarketSnapshot where
  date : String
  close : ℚ
  «open» : ℚ
  high : ℚ
  low : ℚ
  volume : ℚ
  change : ℚ
  change_percent : ℚ
deriving DecidableEq, Repr

/-- Python 3 `round` to an integer: round half to even (banker's rounding),
on an exact rational input. -/
def pyRoundInt (q : ℚ) : ℤ :=
  if Int.fract q = 1/2 then
    (if ⌊q⌋ % 2 = 0 then ⌊q⌋ else ⌊q⌋ + 1)
  else round q

/-- Python `round(q, 2)`: round to 2 decimal places. -/
def round2 (q : ℚ) : ℚ := (pyRoundInt (q * 100) : ℚ) / 100

/-- `get_nasdaq_data`, with the fetched history passed in as the list of
daily bars (oldest first, as `nasdaq.history(period="5d")` returns it).
`hist.iloc[-1]` is the head of the reversed list and `hist.iloc[-2]` the
next element when `len(hist) > 1`; an empty history returns `None`. -/
def get_nasdaq_data (hist : List Bar) : Option MarketSnapshot :=
  match hist.reverse with
  | [] => none
  | last_day :: rest =>
    let prev_day := match rest with
      | [] => last_day
      | p :: _ => p
    let change := last_day.Close - prev_day.Close
    let change_percent := change / prev_day.Close * 100
    some {
      date := last_day.name
      close := round2 last_day.Close
      «open» := round2 last_day.Open
      high := round2 last_day.High
      low := round2 last_day.Low
      volume := last_day.Volume
      change := round2 change
      change_percent := round2 change_percent }

/-! ## News scraper (`get_google_finance_news`) -/

/-- One candidate news-item container (`article`): the optional headline node
`article.find('div', class_='Yfwt5')` rendered to its text, and the optional
anchor `article.find('a')` rendered to its `href`. -/
structure ArticleEl where
  titleEl : Option String
  linkEl : Option String
deriving DecidableEq, Repr

/-- The parsed page: the containers matched by each of the two selector
classes tried in order (`div.yY3Lee`, then `div.F2KAFc` as fallback). -/
structure Page where
  yY3Lee : List ArticleEl
  F2KAFc : List ArticleEl
deriving DecidableEq, Repr

/-- Link normalisation inside the scraper loop: `./path` is appended to the
page URL with the leading dot dropped (`link[1:]`), `/path` to the origin,
anything else is left as-is. -/
def normalizeLink (link : String) : String :=
  if pyStartsWith link "./" then "https://www.google.com/finance" ++ pyDrop link 1
  else if pyStartsWith link "/" then "https://www.google.com" ++ link
  else link

/-- The body of the `for article in articles[:5]` loop: a container
contributes a bulleted line only when its headline node exists; a missing
anchor yields the link `"#"`. -/
def extract_step (acc : List String) (article : ArticleEl) : List String :=
  match article.titleEl with
  | none => acc
  | some title =>
    let link := normalizeLink (article.linkEl.getD "#")
    acc ++ ["- " ++ title ++ " (" ++ link ++ ")"]

/-- The `for article in articles[:5]` loop accumulating `news_items`. -/
def extract_items (articles : List ArticleEl) : List String :=
  (articles.take 5).foldl extract_step []

/-- `get_google_finance_news`: `ok` is whether the GET and parse succeeded
(the `except` branch returns the fixed error string otherwise). The first
selector's matches are used when non-empty, else the fallback selector's. -/
def get_google_finance_news (ok : Bool) (page : Page) : String :=
  if ok then
    let articles := if page.yY3Lee = [] then page.F2KAFc else page.yY3Lee
    let news_items := extract_items articles
    if news_items = [] then
      "Could not scrape specific headlines. Please generate a general market overview based on recent global financial events."
    else
      joinNL news_items
  else "Error fetching news."

/-! ## Model-response parsing (inside `generate_blog_content`) -/

/-- Python `line.strip().startswith("Title:") or line.strip().startswith("제목:")`. -/
def isTitleLine (line : String) : Bool :=
  pyStartsWith (pyStrip line) "Title:" || pyStartsWith (pyStrip line) "제목:"

/-- Python `line.strip().startswith("Content:") or line.strip().startswith("내용:")`. -/
def isContentLine (line : String) : Bool :=
  pyStartsWith (pyStrip line) "Content:" || pyStartsWith (pyStrip line) "내용:"

/-- Python `line.split(':', 1)[1].strip()`: everything after the first
colon, stripped. -/
def afterColon (line : String) : String := pyStrip ⟨afterColonChars line.data⟩

/-- The `for i, line in enumerate(lines)` scan: a Title-marked line
overwrites the title accumulator; the first Content-marked line sets the
body to the join of all later lines and breaks. -/
def scanLines : List String → String → String → String × String
  | [], title, content => (title, content)
  | line :: rest, title, content =>
    if isTitleLine line then scanLines rest (afterColon line) content
    else if isContentLine line then (title, joinNL rest)
    else scanLines rest title content

/-- The parsing block of `generate_blog_content`: title starts as
`"Market Update"`, content as the whole response text. -/
def parseResponse (text : String) : String × String :=
  scanLines (pySplitNL text) "Market Update" text

/-! ## The pipeline (`generate_blog_content`, `post_to_wordpress`, `main`)

Outbound network calls are recorded as events so that claims of the form
"no request is issued" are statements about the run's event trace. -/

/-- The daily content category chosen by the weekday branch of `main`. -/
inductive Mode where
  | NEWS
  | MARKET
deriving DecidableEq, Repr

/-- An outbound network call made during a run. `wpRequest` records the
`"user:password"` string from which the Basic Authorization header is
base64-derived, plus the posted title and content. -/
inductive Event where
  | fetchNews
  | fetchMarket
  | callModel
  | wpRequest (credentials title content : String)
deriving DecidableEq, Repr

/-- The WordPress environment configuration read by `os.getenv`. -/
structure WPConfig where
  WP_URL : Option String
  WP_USERNAME : Option String
  WP_APP_PASSWORD : Option String
deriving DecidableEq, Repr

/-- Everything outside the script that one run consumes: the wall-clock
weekday (Python `datetime.weekday()`: Monday = 0, ..., Sunday = 6), the
scraped page and whether its GET succeeded, the yfinance history, the
Gemini key, the model's reply (`none` models an exception from the
invocation), the WordPress credentials and whether the POST would succeed. -/
structure WorldInputs where
  weekday : Nat
  newsOk : Bool
  page : Page
  hist : List Bar
  GEMINI_API_KEY : Option String
  genText : Option String
  wp : WPConfig
  wpNetOk : Bool

/-- `generate_blog_content`: a falsy API key short-circuits to the error
string pair with no model call; otherwise the model is invoked (one
`callModel` event) and either raises (`(None, None)`) or returns text that
is parsed. The topic and data context only feed the prompt. -/
def generate_blog_content (key : Option String) (genText : Option String)
    (_topic _data_context : String) : (Option String × Option String) × List Event :=
  if envFalsy key then ((some "Error: Gemini API Key not found.", some "Error"), [])
  else
    match genText with
    | none => ((none, none), [Event.callModel])
    | some text =>
      let tc := parseResponse text
      ((some tc.1, some tc.2), [Event.callModel])

/-- `post_to_wordpress`: any falsy credential returns `False` before the
auth header is built or any request sent; otherwise one POST carrying the
Basic credentials is issued and its success is the result. -/
def post_to_wordpress (cfg : WPConfig) (netOk : Bool) (title content : String) :
    Bool × List Event :=
  if envFalsy cfg.WP_URL || envFalsy cfg.WP_USERNAME || envFalsy cfg.WP_APP_PASSWORD then
    (false, [])
  else
    let credentials := cfg.WP_USERNAME.getD "" ++ ":" ++ cfg.WP_APP_PASSWORD.getD ""
    (netOk, [Event.wpRequest credentials title content])

/-- The `data_context` f-string built in `main`'s MARKET branch (rationals
rendered by `toString` in place of Python float formatting). -/
def format_market_context (d : MarketSnapshot) : String :=
  "\n            Date: " ++ d.date ++
  "\n            Close: " ++ toString d.close ++
  "\n            Open: " ++ toString d.«open» ++
  "\n            High: " ++ toString d.high ++
  "\n            Low: " ++ toString d.low ++
  "\n            Change: " ++ toString d.change ++
  " (" ++ toString d.change_percent ++ "%)\n            "

/-- The outcome of one run: which mode was selected, the topic if one was
assigned before the run ended, and the trace of outbound calls. -/
structure RunTrace where
  mode : Mode
  topic : Option String
  events : List Event
deriving Repr

/-- The tail of `main` after data collection: the `if not data` guard, then
content generation, then the Python-truthiness guard `if title and content`
deciding whether `post_to_wordpress` runs (its boolean result is discarded
in the source). -/
def finishEvents (w : WorldInputs) (topic data : String) (evs : List Event) :
    List Event :=
  if data = "" then evs
  else
    match generate_blog_content w.GEMINI_API_KEY w.genText topic data with
    | ((some title, some content), gevs) =>
      if title = "" ∨ content = "" then evs ++ gevs
      else evs ++ gevs ++ (post_to_wordpress w.wp w.wpNetOk title content).2
    | ((_, _), gevs) => evs ++ gevs

/-- `main`: the weekday branch. Sunday (6) or Monday (0) scrapes news with
the fixed topic; Tuesday–Saturday fetches the Nasdaq snapshot, builds the
dated topic and context, and returns early when the fetcher yields `None`. -/
def main (w : WorldInputs) : RunTrace :=
  if w.weekday = 6 ∨ w.weekday = 0 then
    let data := get_google_finance_news w.newsOk w.page
    { mode := Mode.NEWS
      topic := some "Global Financial Market News & Updates"
      events := finishEvents w "Global Financial Market News & Updates" data [Event.fetchNews] }
  else
    match get_nasdaq_data w.hist with
    | some d =>
      let topic := "Nasdaq Market Review (" ++ d.date ++ ")"
      { mode := Mode.MARKET
        topic := some topic
        events := finishEvents w topic (format_market_context d) [Event.fetchMarket] }
    | none => { mode := Mode.MARKET, topic := none, events := [Event.fetchMarket] }

/-! ## Parsing lemmas -/

/-- The title produced by scanning a block of lines that contains no
Content marker: the last Title-marked line wins, `t` if there is none. -/
def titleScan (lines : List String) (t : String) : String :=
  lines.foldl (fun acc l => if isTitleLine l then afterColon l else acc) t

theorem scanLines_no_match (lines : List String) (t c : String)
    (h : ∀ l ∈ lines, isTitleLine l = false ∧ isContentLine l = false) :
    scanLines lines t c = (t, c) := by
  induction lines with
  | nil => rfl
  | cons l rest ih =>
    have hl := h l (List.mem_cons_self l rest)
    simp only [scanLines, hl.1, hl.2, Bool.false_eq_true, if_false]
    exact ih fun x hx => h x (List.mem_cons_of_mem _ hx)

theorem scanLines_break (pre post : List String) (c t body : String)
    (hpre : ∀ l ∈ pre, isContentLine l = false)
    (hcT : isTitleLine c = false) (hc : isContentLine c = true) :
    scanLines (pre ++ c :: post) t body = (titleScan pre t, joinNL post) := by
  induction pre generalizing t with
  | nil => simp [scanLines, titleScan, hcT, hc]
  | cons l rest ih =>
    have hl := hpre l (List.mem_cons_self l rest)
    have hrest : ∀ x ∈ rest, isContentLine x = false :=
      fun x hx => hpre x (List.mem_cons_of_mem _ hx)
    by_cases hT : isTitleLine l
    · simp only [List.cons_append, scanLines, hT, if_true, titleScan, List.foldl_cons]
      exact ih (afterColon l) hrest
    · simp only [List.cons_append, scanLines, hT, Bool.false_eq_true, if_false, hl,
        titleScan, List.foldl_cons]
      simpa [titleScan, hT] using ih t hrest

/-- C3: the claim expects parsing `"Title: Foo\nContent: Bar\nBaz"` to yield
the body `"Bar\nBaz"`; the source sets the body to the join of the lines
strictly after the Content line, so the text after the colon on the Content
line is discarded and this is false. -/
theorem parse_keeps_content_line_text_false :
    parseResponse "Title: Foo\nContent: Bar\nBaz" ≠ ("Foo", "Bar\nBaz") := by decide

/-- C3 (amended): parsing `"Title: Foo\nContent: Bar\nBaz"` yields
title `"Foo"` and body `"Baz"`: the `"Bar"` after the colon on the Content
line is dropped, the body being the lines after the Content line. -/
theorem parse_drops_content_line_text :
    parseResponse "Title: Foo\nContent: Bar\nBaz" = ("Foo", "Baz") := by decide

/-- C4: a response none of whose lines carries a Title or Content marker
(English or Korean, after stripping) parses to the fixed placeholder title
`"Market Update"` with the entire raw response as the body; the parser is a
total function, so no exception is possible. -/
theorem parse_no_markers (text : String)
    (h : ∀ line ∈ pySplitNL text, isTitleLine line = false ∧ isContentLine line = false) :
    parseResponse text = ("Market Update", text) := by
  unfold parseResponse
  exact scanLines_no_match _ _ _ h

/-- Witness for C4 on the two-line markerless response `"hello\nworld"`. -/
theorem parse_no_markers_witness :
    parseResponse "hello\nworld" = ("Market Update", "hello\nworld") :=
  parse_no_markers "hello\nworld" (by decide)

/-- C10: the scan stops at the first Content-marked line: the title is the
last Title-marked line before it (the accumulator `titleScan`, starting from
the placeholder), the body is exactly the join of the lines after it, and
markers occurring after that line cannot influence either component. -/
theorem parse_stops_at_first_content (text : String) (pre post : List String) (c : String)
    (hsplit : pySplitNL text = pre ++ c :: post)
    (hpre : ∀ l ∈ pre, isContentLine l = false)
    (hcT : isTitleLine c = false)
    (hc : isContentLine c = true) :
    parseResponse text = (titleScan pre "Market Update", joinNL post) := by
  unfold parseResponse
  rw [hsplit]
  exact scanLines_break pre post c _ text hpre hcT hc

/-- Witness for C10: the second Title line overwrites the first, and the
Title marker after the Content line is inert, left verbatim in the body. -/
theorem parse_stops_at_first_content_witness :
    parseResponse "Title: A\nTitle: B\nContent: x\nTitle: C\nZ" = ("B", "Title: C\nZ") := by
  have h := parse_stops_at_first_content "Title: A\nTitle: B\nContent: x\nTitle: C\nZ"
    ["Title: A", "Title: B"] ["Title: C", "Z"] "Content: x"
    (by decide) (by decide) (by decide) (by decide)
  exact h.trans (by decide)

/-! ## Snapshot arithmetic (C2) -/

theorem round2_zero : round2 0 = 0 := by
  simp [round2, pyRoundInt]

/-- C2: on a history whose two most recent bars are `prev_day` then
`last_day`, the snapshot carries `change = last.Close − prev.Close` and
`change_percent = change / prev.Close × 100`, each rounded to 2 decimals,
as are close, open, high and low; on a single bar the bar is compared with
itself, so change and change_percent are both 0. The nonzero-Close
hypotheses record that the source's float division does not raise
`ZeroDivisionError` at these inputs. -/
theorem nasdaq_change_formula (rest : List Bar) (prev_day last_day b : Bar)
    (_hprev : prev_day.Close ≠ 0) (_hb : b.Close ≠ 0) :
    get_nasdaq_data (rest ++ [prev_day, last_day]) = some {
      date := last_day.name
      close := round2 last_day.Close
      «open» := round2 last_day.Open
      high := round2 last_day.High
      low := round2 last_day.Low
      volume := last_day.Volume
      change := round2 (last_day.Close - prev_day.Close)
      change_percent := round2 ((last_day.Close - prev_day.Close) / prev_day.Close * 100) } ∧
    get_nasdaq_data [b] = some {
      date := b.name
      close := round2 b.Close
      «open» := round2 b.Open
      high := round2 b.High
      low := round2 b.Low
      volume := b.Volume
      change := 0
      change_percent := 0 } := by
  constructor
  · have hrev : (rest ++ [prev_day, last_day]).reverse =
        last_day :: prev_day :: rest.reverse := by simp
    unfold get_nasdaq_data
    rw [hrev]
  · have h1 : b.Close - b.Close = 0 := sub_self _
    unfold get_nasdaq_data
    simp [h1, round2_zero]

/-- Witness for C2 at a 2-bar history with a 2.5-point gain and at a 1-bar
history. -/
theorem nasdaq_change_formula_witness :
    get_nasdaq_data
      [{ name := "2025-01-01", Close := 100, Open := 99, High := 101, Low := 98, Volume := 10 },
       { name := "2025-01-02", Close := 205/2, Open := 100, High := 103, Low := 99, Volume := 20 }] =
      some { date := "2025-01-02", close := 205/2, «open» := 100, high := 103, low := 99,
             volume := 20, change := 5/2, change_percent := 5/2 } ∧
    get_nasdaq_data
      [{ name := "2025-01-03", Close := 50, Open := 50, High := 50, Low := 50, Volume := 5 }] =
      some { date := "2025-01-03", close := 50, «open» := 50, high := 50, low := 50,
             volume := 5, change := 0, change_percent := 0 } := by
  have h := nasdaq_change_formula []
    { name := "2025-01-01", Close := 100, Open := 99, High := 101, Low := 98, Volume := 10 }
    { name := "2025-01-02", Close := 205/2, Open := 100, High := 103, Low := 99, Volume := 20 }
    { name := "2025-01-03", Close := 50, Open := 50, High := 50, Low := 50, Volume := 5 }
    (by norm_num) (by norm_num)
  refine ⟨h.1.trans ?_, h.2.trans ?_⟩ <;>
    simp only [Option.some.injEq, MarketSnapshot.mk.injEq] <;>
    norm_num [round2, pyRoundInt, Int.fract]

/-! ## Scraper fallback (C6) -/

theorem foldl_extract_step_nil (l : List ArticleEl) (acc : List String)
    (h : ∀ a ∈ l, a.titleEl = none) : l.foldl extract_step acc = acc := by
  induction l generalizing acc with
  | nil => rfl
  | cons a rest ih =>
    have ha := h a (List.mem_cons_self _ _)
    simp only [List.foldl_cons, extract_step, ha]
    exact ih acc fun x hx => h x (List.mem_cons_of_mem _ hx)

/-- C6: when no container among the first five of the winning selector's
matches carries a headline node (in particular when both selector classes
match nothing), the scraper returns the fixed generate-a-general-overview
instruction string — never the empty string; the embedded scraper is a
total function, so no exception is possible. -/
theorem scraper_returns_fallback (page : Page)
    (h : ∀ a ∈ (if page.yY3Lee = [] then page.F2KAFc else page.yY3Lee).take 5,
      a.titleEl = none) :
    get_google_finance_news true page =
      "Could not scrape specific headlines. Please generate a general market overview based on recent global financial events." ∧
    get_google_finance_news true page ≠ "" := by
  have hnil : extract_items (if page.yY3Lee = [] then page.F2KAFc else page.yY3Lee) = [] :=
    foldl_extract_step_nil _ [] h
  have hmain : get_google_finance_news true page =
      "Could not scrape specific headlines. Please generate a general market overview based on recent global financial events." := by
    unfold get_google_finance_news
    rw [if_pos rfl]
    dsimp only
    rw [hnil]
    simp
  exact ⟨hmain, by rw [hmain]; decide⟩

/-- Witness for C6 on a page where both selector classes match nothing. -/
theorem scraper_returns_fallback_witness :
    get_google_finance_news true { yY3Lee := [], F2KAFc := [] } =
      "Could not scrape specific headlines. Please generate a general market overview based on recent global financial events." :=
  (scraper_returns_fallback { yY3Lee := [], F2KAFc := [] } (by decide)).1

/-! ## Publisher short-circuit (C7) -/

/-- C7: whenever any of the CMS base URL, username or application password
is missing (unset or empty), `post_to_wordpress` returns `False` with an
empty outbound trace: no credentials string is assembled into an auth
header and no request is issued, for every title and content. -/
theorem publisher_short_circuits (cfg : WPConfig) (netOk : Bool) (title content : String)
    (h : envFalsy cfg.WP_URL = true ∨ envFalsy cfg.WP_USERNAME = true ∨
      envFalsy cfg.WP_APP_PASSWORD = true) :
    post_to_wordpress cfg netOk title content = (false, []) := by
  unfold post_to_wordpress
  rcases h with h | h | h <;> simp [h]

/-- Witness for C7 with the base URL unset. -/
theorem publisher_short_circuits_witness :
    post_to_wordpress { WP_URL := none, WP_USERNAME := some "user", WP_APP_PASSWORD := some "pass" }
      true "A title" "A body" = (false, []) :=
  publisher_short_circuits _ true "A title" "A body" (Or.inl (by decide))

/-! ## Link normalisation (C9) -/

/-- C9: a link starting with `"./"` is rewritten onto the page URL with the
dot dropped (an absolute `https://www.google.com/finance/...` URL), a link
starting with `"/"` (but not `"./"`) onto the origin
`https://www.google.com`, and every other link is left unchanged. -/
theorem link_normalization (link : String) :
    (pyStartsWith link "./" = true →
      normalizeLink link = "https://www.google.com/finance" ++ pyDrop link 1) ∧
    (pyStartsWith link "./" = false → pyStartsWith link "/" = true →
      normalizeLink link = "https://www.google.com" ++ link) ∧
    (pyStartsWith link "./" = false → pyStartsWith link "/" = false →
      normalizeLink link = link) := by
  refine ⟨fun h => ?_, fun h1 h2 => ?_, fun h1 h2 => ?_⟩ <;> simp [normalizeLink, *]

/-- Witness for C9 on a `./` link, a `/` link and an already-absolute link. -/
theorem link_normalization_witness :
    normalizeLink "./abc" = "https://www.google.com/finance/abc" ∧
    normalizeLink "/news" = "https://www.google.com/news" ∧
    normalizeLink "https://ex.com/a" = "https://ex.com/a" := by
  refine ⟨?_, ?_, ?_⟩
  · exact ((link_normalization "./abc").1 (by decide)).trans (by decide)
  · exact ((link_normalization "/news").2.1 (by decide) (by decide)).trans (by decide)
  · exact (link_normalization "https://ex.com/a").2.2 (by decide) (by decide)

/-! ## Mode selection and run control flow (C1, C5, C8) -/

theorem format_market_context_ne_empty (d : MarketSnapshot) :
    format_market_context d ≠ "" := by
  intro h
  have hlen := congrArg String.length h
  rw [format_market_context] at hlen
  simp only [String.length_append] at hlen
  have h1 : String.length "\n            Date: " = 19 := by decide
  have h0 : String.length "" = 0 := by decide
  rw [h1, h0] at hlen
  omega

/-- C1: the mode is a pure function of the weekday. Python's
`datetime.weekday()` numbers Monday 0 through Sunday 6, so the ISO weekday
is `weekday + 1`; when that is Sunday (7) or Monday (1) the run is NEWS
mode with the fixed global-market-news topic, and on every other weekday
(ISO 2–6, Tuesday through Saturday) it is MARKET mode, whose topic carries
the snapshot's date whenever the fetch succeeds. -/
theorem mode_is_function_of_weekday (w : WorldInputs) :
    ((w.weekday + 1 = 7 ∨ w.weekday + 1 = 1) →
      (main w).mode = Mode.NEWS ∧
      (main w).topic = some "Global Financial Market News & Updates") ∧
    ((2 ≤ w.weekday + 1 ∧ w.weekday + 1 ≤ 6) →
      (main w).mode = Mode.MARKET ∧
      ∀ d, get_nasdaq_data w.hist = some d →
        (main w).topic = some ("Nasdaq Market Review (" ++ d.date ++ ")")) := by
  constructor
  · intro h
    have hcond : w.weekday = 6 ∨ w.weekday = 0 := by omega
    unfold main
    rw [if_pos hcond]
    exact ⟨rfl, rfl⟩
  · rintro ⟨h2, h6⟩
    have hcond : ¬(w.weekday = 6 ∨ w.weekday = 0) := by omega
    unfold main
    rw [if_neg hcond]
    cases hq : get_nasdaq_data w.hist with
    | none => exact ⟨rfl, fun d hd => by simp at hd⟩
    | some d0 =>
      refine ⟨rfl, fun d hd => ?_⟩
      obtain rfl : d0 = d := by injection hd
      rfl

/-- Witness for C1: a Sunday run (weekday 6) is NEWS mode with the fixed
topic, and a Wednesday run (weekday 2) on a 1-bar history is MARKET mode
with the dated topic. -/
theorem mode_is_function_of_weekday_witness :
    (main { weekday := 6, newsOk := true, page := { yY3Lee := [], F2KAFc := [] },
            hist := [], GEMINI_API_KEY := none, genText := none,
            wp := { WP_URL := none, WP_USERNAME := none, WP_APP_PASSWORD := none },
            wpNetOk := false }).mode = Mode.NEWS ∧
    (main { weekday := 2, newsOk := true, page := { yY3Lee := [], F2KAFc := [] },
            hist := [{ name := "2025-01-03", Close := 50, Open := 50, High := 50, Low := 50,
                       Volume := 5 }],
            GEMINI_API_KEY := none, genText := none,
            wp := { WP_URL := none, WP_USERNAME := none, WP_APP_PASSWORD := none },
            wpNetOk := false }).mode = Mode.MARKET := by
  constructor
  · exact ((mode_is_function_of_weekday _).1 (Or.inl rfl)).1
  · exact ((mode_is_function_of_weekday _).2 (by decide)).1

/-- C5: on a MARKET-mode weekday with an empty price series, the fetcher
returns the `None` sentinel (no exception: it is a total function), and the
run ends immediately after data collection: the trace holds the market
fetch alone, so the generator is never invoked and nothing is published. -/
theorem empty_series_halts (w : WorldInputs)
    (hmode : ¬(w.weekday = 6 ∨ w.weekday = 0))
    (hempty : w.hist = []) :
    get_nasdaq_data w.hist = none ∧
    (main w).events = [Event.fetchMarket] ∧
    Event.callModel ∉ (main w).events ∧
    ∀ cr t c, Event.wpRequest cr t c ∉ (main w).events := by
  have hnone : get_nasdaq_data w.hist = none := by rw [hempty]; rfl
  have hev : (main w).events = [Event.fetchMarket] := by
    unfold main
    rw [if_neg hmode]
    rw [hnone]
  refine ⟨hnone, hev, ?_, ?_⟩
  · rw [hev]; simp
  · intro cr t c; rw [hev]; simp

/-- Witness for C5: a Wednesday run over an empty history. -/
theorem empty_series_halts_witness :
    (main { weekday := 2, newsOk := true, page := { yY3Lee := [], F2KAFc := [] },
            hist := [], GEMINI_API_KEY := none, genText := none,
            wp := { WP_URL := none, WP_USERNAME := none, WP_APP_PASSWORD := none },
            wpNetOk := false }).events = [Event.fetchMarket] :=
  (empty_series_halts _ (by decide) rfl).2.1

/-- Control-flow helper: on a MARKET weekday with data, a falsy Gemini key
and all WordPress credentials present, the run's trace is the market fetch
followed by a publish request carrying the generator's error string pair. -/
theorem market_missing_key_trace (w : WorldInputs) (d : MarketSnapshot)
    (hmode : ¬(w.weekday = 6 ∨ w.weekday = 0))
    (hd : get_nasdaq_data w.hist = some d)
    (hkey : envFalsy w.GEMINI_API_KEY = true)
    (hurl : envFalsy w.wp.WP_URL = false)
    (husr : envFalsy w.wp.WP_USERNAME = false)
    (hpwd : envFalsy w.wp.WP_APP_PASSWORD = false) :
    (main w).events = [Event.fetchMarket,
      Event.wpRequest (w.wp.WP_USERNAME.getD "" ++ ":" ++ w.wp.WP_APP_PASSWORD.getD "")
        "Error: Gemini API Key not found." "Error"] := by
  unfold main
  rw [if_neg hmode, hd]
  dsimp only
  unfold finishEvents
  rw [if_neg (format_market_context_ne_empty d)]
  unfold generate_blog_content
  rw [if_pos hkey]
  dsimp only
  rw [if_neg (by decide : ¬("Error: Gemini API Key not found." = "" ∨ "Error" = ""))]
  unfold post_to_wordpress
  rw [hurl, husr, hpwd]
  simp

/-- C8 failing run: on a Wednesday with a valid 1-bar history, the Gemini
key unset and full WordPress credentials, the run issues a publish request
carrying the error string pair — generation "failed" (short-circuited on
the missing key, before any model call), yet the Publisher is invoked,
because the error strings are truthy and pass the `if title and content`
guard. -/
theorem missing_api_key_still_publishes :
    (main { weekday := 2, newsOk := true, page := { yY3Lee := [], F2KAFc := [] },
            hist := [{ name := "2025-01-03", Close := 50, Open := 50, High := 50, Low := 50,
                       Volume := 5 }],
            GEMINI_API_KEY := none, genText := none,
            wp := { WP_URL := some "https://example.com", WP_USERNAME := some "user",
                    WP_APP_PASSWORD := some "pass" },
            wpNetOk := true }).events =
      [Event.fetchMarket,
       Event.wpRequest "user:pass" "Error: Gemini API Key not found." "Error"] := by
  have h := market_missing_key_trace
    { weekday := 2, newsOk := true, page := { yY3Lee := [], F2KAFc := [] },
      hist := [{ name := "2025-01-03", Close := 50, Open := 50, High := 50, Low := 50,
                 Volume := 5 }],
      GEMINI_API_KEY := none, genText := none,
      wp := { WP_URL := some "https://example.com", WP_USERNAME := some "user",
              WP_APP_PASSWORD := some "pass" },
      wpNetOk := true }
    _ (by decide) rfl (by decide) (by decide) (by decide) (by decide)
  exact h.trans (by decide)

end StockNews
